import Mathlib

/-!
Verification of the Semantic Retrieval Engine (RAG knowledge-base handler).

The Python source (`src/lambda/rag-knowledge-base/handler.py`) is embedded
shallowly below: Python floats become `ℝ`, dicts become structures, DynamoDB
and the Bedrock models become an explicit store state plus an environment of
collaborator functions, and every external interaction is recorded in a trace
of `ExtCall` events.  `raise ValueError` becomes `Except.error`.
-/

noncomputable section

/-- The EMBEDDING_MODEL constant from the handler. -/
def EMBEDDING_MODEL : String := "amazon.titan-embed-text-v1"

/-- Values stored in the open `metadata` mapping of a record
(the handler stores strings and booleans there). -/
inductive MetaVal where
  | str (s : String)
  | bool (b : Bool)
deriving DecidableEq

/-- An embedding record as written by `store_embedding` (one DynamoDB item). -/
structure EmbeddingRecord where
  embedding_id : String
  dataset_id : String
  content_type : String
  content : String
  embedding : List ℝ
  model : String
  created_at : String
  metadata : List (String × MetaVal)

/-- The embeddings table contents. -/
abbrev Store := List EmbeddingRecord

/-- One entry of the list returned by `semantic_search`. -/
structure SearchResult where
  embedding_id : String
  dataset_id : String
  content_type : String
  content : String
  metadata : List (String × MetaVal)
  similarity : ℝ

/-- External interactions performed by the handler, in order. -/
inductive ExtCall where
  | embedText (text : Option String)
  | synthesizeAnswer (query : String)
  | storePut (embedding_id : String)
  | storeQuery (dataset_id : String)
  | storeScan
  | storeDelete (embedding_id : String) (created_at : String)
deriving DecidableEq

/-- The external collaborators (Bedrock models, clock), per spec section 6:
the embedding provider and the answer synthesizer are modelled as total
functions supplied by the environment.  The provider argument is
`Option String` because Python passes `None` through unchecked. -/
structure Env where
  embed : Option String → List ℝ
  synthesize : String → List SearchResult → String
  now : String

/-- Python truthiness of an optional string (`None` and `""` are falsy). -/
def truthyStr : Option String → Bool
  | none => false
  | some s => s != ""

/-- Python truthiness of a string. -/
def truthyS (s : String) : Bool := s != ""

/-- Function cosine_similarity (handler lines 34-45).  The dot product is a sum over
`zip`, which silently truncates to the shorter vector; the magnitudes use the
full vectors.  Returns `0.0` when either magnitude is zero. -/
def cosine_similarity (vec1 vec2 : List ℝ) : ℝ :=
  let dot_product := (List.zipWith (fun a b => a * b) vec1 vec2).sum
  let magnitude1 := Real.sqrt ((vec1.map (fun a => a * a)).sum)
  let magnitude2 := Real.sqrt ((vec2.map (fun b => b * b)).sum)
  if magnitude1 = 0 ∨ magnitude2 = 0 then 0 else dot_product / (magnitude1 * magnitude2)

/-- The magnitude used by `cosine_similarity`. -/
def vecMag (v : List ℝ) : ℝ := Real.sqrt ((v.map (fun a => a * a)).sum)

/-- Function generate_embedding: one provider call, returns its vector. -/
def generate_embedding (env : Env) (text : Option String) : List ℝ × List ExtCall :=
  (env.embed text, [ExtCall.embedText text])

/-- Modelled from the spec: the DynamoDB table definition is not part of the
source tree.  Per spec section 4.2 the Embedding Record Store `put` operation
is an upsert keyed by `embedding_id` ("upsert by `embedding_id`"; section 3:
"a second write with the same id overwrites rather than appends"). -/
def dynamo_put (S : Store) (item : EmbeddingRecord) : Store :=
  S.filter (fun r => r.embedding_id != item.embedding_id) ++ [item]

/-- Modelled from the spec: store `delete(embedding_id, created_at)` removes
the record with that composite key; record not found is not an error
(spec section 4.2). -/
def dynamo_delete (S : Store) (embedding_id created_at : String) : Store :=
  S.filter (fun r => !(r.embedding_id == embedding_id && r.created_at == created_at))

/-- Result dict of `store_embedding`. -/
structure StoreResult where
  success : Bool
  embedding_id : String
deriving DecidableEq

/-- Function store_embedding (handler lines 74-108): builds the item and writes it. -/
def store_embedding (env : Env) (S : Store)
    (embedding_id dataset_id content_type content : String)
    (embedding : List ℝ) (metadata : List (String × MetaVal)) :
    (Store × StoreResult) × List ExtCall :=
  let item : EmbeddingRecord :=
    { embedding_id := embedding_id, dataset_id := dataset_id,
      content_type := content_type, content := content, embedding := embedding,
      model := EMBEDDING_MODEL, created_at := env.now, metadata := metadata }
  ((dynamo_put S item, { success := true, embedding_id := embedding_id }),
   [ExtCall.storePut embedding_id])

/-- Function retrieve_embeddings (handler lines 111-135): query by dataset when
the `dataset_id` argument is truthy, otherwise scan; bounded by `limit`. -/
def retrieve_embeddings (S : Store) (dataset_id : Option String)
    (limit : Nat := 1000) : List EmbeddingRecord × List ExtCall :=
  if truthyStr dataset_id then
    ((S.filter (fun r => r.dataset_id == dataset_id.getD "")).take limit,
     [ExtCall.storeQuery (dataset_id.getD "")])
  else
    (S.take limit, [ExtCall.storeScan])

/-- The candidate scoring stage of `semantic_search` (handler lines 147-179):
embed the query, load candidates, filter by content type when truthy, and
score every remaining candidate, in enumeration order. -/
def scored_results (env : Env) (S : Store) (query : Option String)
    (dataset_id content_type : Option String) : List SearchResult × List ExtCall :=
  let qc := generate_embedding env query
  let rc := retrieve_embeddings S dataset_id
  let all_embeddings :=
    if truthyStr content_type then
      rc.1.filter (fun item => item.content_type == content_type.getD "")
    else rc.1
  (all_embeddings.map (fun item =>
      { embedding_id := item.embedding_id, dataset_id := item.dataset_id,
        content_type := item.content_type, content := item.content,
        metadata := item.metadata,
        similarity := cosine_similarity qc.1 item.embedding }),
   qc.2 ++ rc.2)

/-- The comparison used by `results.sort(key=lambda x: x['similarity'],
reverse=True)`: stable descending order on the similarity key. -/
def searchLE (a b : SearchResult) : Bool := decide (b.similarity ≤ a.similarity)

/-- Python list slicing `l[:k]` for an arbitrary integer bound `k`. -/
def pySlice {α : Type} (l : List α) (k : Int) : List α :=
  if 0 ≤ k then l.take k.toNat else l.take (l.length - (-k).toNat)

/-- The number of elements kept by `pySlice`. -/
def pySliceLen {α : Type} (l : List α) (k : Int) : Nat :=
  if 0 ≤ k then k.toNat else l.length - (-k).toNat

/-- Function semantic_search (handler lines 138-189): score, sort descending by
similarity with a stable sort, return the first `top_k` entries. -/
def semantic_search (env : Env) (S : Store) (query : Option String)
    (top_k : Int := 5) (dataset_id : Option String := none)
    (content_type : Option String := none) : List SearchResult × List ExtCall :=
  let rc := scored_results env S query dataset_id content_type
  (pySlice (rc.1.mergeSort searchLE) top_k, rc.2)

/-- Function generate_answer (handler lines 192-242): one synthesizer call on the
query and the retrieved context. -/
def generate_answer (env : Env) (query : String) (context : List SearchResult) :
    String × List ExtCall :=
  (env.synthesize query context, [ExtCall.synthesizeAnswer query])

/-- Request parameters (the `parameters` dict); absent keys are `none`. -/
structure Params where
  dataset_id : Option String := none
  title : Option String := none
  description : Option String := none
  abstract : Option String := none
  keywords : Option (List String) := none
  subjects : Option (List String) := none
  query : Option String := none
  top_k : Option Int := none
  content_type : Option String := none
  include_answer : Option Bool := none

/-- Result dict of `index_dataset`. -/
structure IndexResult where
  success : Bool
  dataset_id : String
  embeddings_created : Nat
  results : List StoreResult

/-- Function index_dataset (handler lines 245-313): validates `dataset_id`, then
three independent optional branches, each embedding one content chunk and
writing it through the store. -/
def index_dataset (env : Env) (S : Store) (params : Params) :
    Except String ((Store × IndexResult) × List ExtCall) :=
  let dataset_id := params.dataset_id
  let title := params.title.getD ""
  let description := params.description.getD ""
  let abstract := params.abstract.getD ""
  let keywords := params.keywords.getD []
  let subjects := params.subjects.getD []
  if truthyStr dataset_id = false then Except.error "dataset_id is required" else
  let d := dataset_id.getD ""
  let step1 : Store × List StoreResult × List ExtCall :=
    if truthyS title && truthyS description then
      let combined_text := "Title: " ++ title ++ "\n\nDescription: " ++ description
      let ec := generate_embedding env (some combined_text)
      let sc := store_embedding env S (d ++ "#metadata") d "metadata" combined_text
        ec.1 [("title", MetaVal.str title), ("has_description", MetaVal.bool true)]
      (sc.1.1, [sc.1.2], ec.2 ++ sc.2)
    else (S, [], [])
  let step2 : Store × List StoreResult × List ExtCall :=
    if truthyS abstract then
      let ec := generate_embedding env (some abstract)
      let sc := store_embedding env step1.1 (d ++ "#abstract") d "abstract" abstract
        ec.1 [("title", MetaVal.str title)]
      (sc.1.1, step1.2.1 ++ [sc.1.2], step1.2.2 ++ ec.2 ++ sc.2)
    else step1
  let step3 : Store × List StoreResult × List ExtCall :=
    if !keywords.isEmpty || !subjects.isEmpty then
      let kcsv := String.intercalate ", " keywords
      let scsv := String.intercalate ", " subjects
      let keywords_text := "Keywords: " ++ kcsv ++ "\nSubjects: " ++ scsv
      let ec := generate_embedding env (some keywords_text)
      let sc := store_embedding env step2.1 (d ++ "#keywords") d "keywords" keywords_text
        ec.1 [("title", MetaVal.str title)]
      (sc.1.1, step2.2.1 ++ [sc.1.2], step2.2.2 ++ ec.2 ++ sc.2)
    else step2
  Except.ok ((step3.1,
    { success := true, dataset_id := d,
      embeddings_created := step3.2.1.length, results := step3.2.1 }), step3.2.2)

/-- Response dict of `query_knowledge_base`. -/
structure QueryResponse where
  query : String
  results : List SearchResult
  answer : Option String
  total_results : Nat

/-- Function query_knowledge_base (handler lines 316-347): validate `query`,
search,
then synthesize an answer only when requested and results are non-empty. -/
def query_knowledge_base (env : Env) (S : Store) (params : Params) :
    Except String (QueryResponse × List ExtCall) :=
  let query := params.query
  let top_k := params.top_k.getD 5
  let dataset_id := params.dataset_id
  let content_type := params.content_type
  let include_answer := params.include_answer.getD true
  if truthyStr query = false then Except.error "query is required" else
  let rc := semantic_search env S query top_k dataset_id content_type
  let ac : Option String × List ExtCall :=
    if include_answer && !rc.1.isEmpty then
      let g := generate_answer env (query.getD "") rc.1
      (some g.1, g.2)
    else (none, [])
  Except.ok ({ query := query.getD "", results := rc.1, answer := ac.1,
               total_results := rc.1.length }, rc.2 ++ ac.2)

/-- Result dict of `delete_dataset_embeddings`. -/
structure DeleteResult where
  success : Bool
  dataset_id : String
  deleted_count : Nat

/-- Function delete_dataset_embeddings (handler lines 350-382): validate
`dataset_id`, fetch all records for the dataset, delete each by composite
key, count deletions. -/
def delete_dataset_embeddings (_env : Env) (S : Store) (params : Params) :
    Except String ((Store × DeleteResult) × List ExtCall) :=
  let dataset_id := params.dataset_id
  if truthyStr dataset_id = false then Except.error "dataset_id is required" else
  let rc := retrieve_embeddings S dataset_id
  let S' := rc.1.foldl (fun acc item => dynamo_delete acc item.embedding_id item.created_at) S
  Except.ok ((S',
    { success := true, dataset_id := dataset_id.getD "",
      deleted_count := rc.1.length }),
    rc.2 ++ rc.1.map (fun item => ExtCall.storeDelete item.embedding_id item.created_at))

/-- Incoming event (the parsed request body). -/
structure Event where
  operation : Option String := none
  parameters : Params := {}

/-- The JSON body of a handler response. -/
inductive HandlerBody where
  | indexOk (r : IndexResult)
  | queryOk (r : QueryResponse)
  | deleteOk (r : DeleteResult)
  | searchOk (results : List SearchResult) (total_results : Nat)
  | validationError (message : String)

/-- A handler response: status code plus body. -/
structure HandlerResponse where
  statusCode : Nat
  body : HandlerBody

/-- Rendering of the operation name inside the unknown-operation message
(Python interpolates `None` as the string `"None"`). -/
def opRepr : Option String → String
  | none => "None"
  | some s => s

/-- Function lambda_handler (handler lines 385-458): route on `operation`; a
`ValueError` raised by an operation is returned as a 400 validation error.
The `semantic_search` branch reads only `query`, `top_k` and `dataset_id`
from the parameters (lines 408-414). -/
def lambda_handler (env : Env) (S : Store) (event : Event) :
    HandlerResponse × Store × List ExtCall :=
  let operation := event.operation
  let parameters := event.parameters
  if operation == some "index_dataset" then
    match index_dataset env S parameters with
    | Except.ok ((S', r), calls) =>
        ({ statusCode := 200, body := HandlerBody.indexOk r }, S', calls)
    | Except.error msg =>
        ({ statusCode := 400, body := HandlerBody.validationError msg }, S, [])
  else if operation == some "query" then
    match query_knowledge_base env S parameters with
    | Except.ok (r, calls) =>
        ({ statusCode := 200, body := HandlerBody.queryOk r }, S, calls)
    | Except.error msg =>
        ({ statusCode := 400, body := HandlerBody.validationError msg }, S, [])
  else if operation == some "delete_dataset" then
    match delete_dataset_embeddings env S parameters with
    | Except.ok ((S', r), calls) =>
        ({ statusCode := 200, body := HandlerBody.deleteOk r }, S', calls)
    | Except.error msg =>
        ({ statusCode := 400, body := HandlerBody.validationError msg }, S, [])
  else if operation == some "semantic_search" then
    let query := parameters.query
    let top_k := parameters.top_k.getD 10
    let dataset_id := parameters.dataset_id
    let rc := semantic_search env S query top_k dataset_id none
    ({ statusCode := 200, body := HandlerBody.searchOk rc.1 rc.1.length }, S, rc.2)
  else
    ({ statusCode := 400,
       body := HandlerBody.validationError ("Unknown operation: " ++ opRepr operation) },
     S, [])

/-- Repeated application of `index_dataset` with fixed inputs, starting from
an empty store (a failed validation leaves the store unchanged). -/
def indexIter (env : Env) (params : Params) : Nat → Store
  | 0 => []
  | n + 1 =>
    let S := indexIter env params n
    match index_dataset env S params with
    | Except.ok ((S', _), _) => S'
    | Except.error _ => S

/-- Number of records of a store belonging to dataset `d` with content type
`metadata`. -/
def metaCount (d : String) (S : Store) : Nat :=
  S.countP (fun r => decide (r.dataset_id = d ∧ r.content_type = "metadata"))

/-- Id convention: any `metadata` record of dataset `d` carries the
conventional id `{dataset_id}#metadata`. -/
def MetaIdConv (d : String) (S : Store) : Prop :=
  ∀ r ∈ S, r.dataset_id = d → r.content_type = "metadata" →
    r.embedding_id = d ++ "#metadata"

/-- Invariant of indexing: at most one `metadata` record per dataset, and the
id convention holds. -/
def MetaInv (d : String) (S : Store) : Prop :=
  metaCount d S ≤ 1 ∧ MetaIdConv d S

/-- The ids carried by the store-write calls of a trace, in order. -/
def putIds (calls : List ExtCall) : List String :=
  calls.filterMap (fun c => match c with
    | ExtCall.storePut i => some i
    | _ => none)

/-- A trivial environment for concrete runs: the provider returns the empty
vector and the synthesizer the empty string. -/
def env0 : Env := { embed := fun _ => [], synthesize := fun _ _ => "", now := "t0" }

/-- An environment whose provider always returns the 1-dimensional
vector `[1]`. -/
def env1 : Env := { embed := fun _ => [1], synthesize := fun _ _ => "", now := "t0" }

/-- A stored record whose vector `[3, 4]` is 2-dimensional. -/
def rec34 : EmbeddingRecord :=
  { embedding_id := "ds-1#metadata", dataset_id := "ds-1",
    content_type := "metadata", content := "c", embedding := [3, 4],
    model := EMBEDDING_MODEL, created_at := "t0", metadata := [] }

/-- A stored record with content type `metadata` and an empty vector. -/
def recMeta : EmbeddingRecord :=
  { embedding_id := "ds-2#metadata", dataset_id := "ds-2",
    content_type := "metadata", content := "m", embedding := [],
    model := EMBEDDING_MODEL, created_at := "t0", metadata := [] }

/-- Concrete parameters with a query supplied but no dataset_id. -/
def paramsQ : Params := { query := some "x" }

/-- Concrete parameters with a dataset_id supplied but no query. -/
def paramsD : Params := { dataset_id := some "ds" }

/-- Concrete search parameters with a query and content type "abstract". -/
def params8 : Params := { query := some "q", content_type := some "abstract" }

/-- Concrete indexing parameters with a title and a description. -/
def params3 : Params :=
  { dataset_id := some "ds", title := some "T", description := some "Desc" }

/-- Concrete indexing parameters with title, description and keywords. -/
def params9 : Params :=
  { dataset_id := some "ds", title := some "T", description := some "Desc",
    keywords := some ["k"] }

end

/-! ### General lemmas about the embedded definitions -/

theorem pySlice_eq_take {α : Type} (l : List α) (k : Int) :
    pySlice l k = l.take (pySliceLen l k) := by
  unfold pySlice pySliceLen
  split <;> rfl

theorem searchLE_trans (a b c : SearchResult) :
    searchLE a b → searchLE b c → searchLE a c := by
  simp only [searchLE, decide_eq_true_eq]
  exact fun h1 h2 => le_trans h2 h1

theorem searchLE_total (a b : SearchResult) : searchLE a b || searchLE b a := by
  simp only [searchLE, Bool.or_eq_true, decide_eq_true_eq]
  exact le_total _ _

theorem mergeSort_searchLE_pairwise (l : List SearchResult) :
    (l.mergeSort searchLE).Pairwise (fun a b => b.similarity ≤ a.similarity) :=
  (List.sorted_mergeSort searchLE_trans searchLE_total l).imp
    (fun h => of_decide_eq_true h)

theorem mergeSort_searchLE_filter_sim (l : List SearchResult) (v : ℝ) :
    (l.mergeSort searchLE).filter (fun r => decide (r.similarity = v)) =
      l.filter (fun r => decide (r.similarity = v)) := by
  have hpw : (l.filter (fun r => decide (r.similarity = v))).Pairwise
      (fun a b => searchLE a b = true) := by
    apply List.pairwise_of_forall_mem_list
    intro a ha b hb
    have ha' : a.similarity = v := by simpa using List.of_mem_filter ha
    have hb' : b.similarity = v := by simpa using List.of_mem_filter hb
    simp [searchLE, ha', hb']
  have hsub : List.Sublist (l.filter (fun r => decide (r.similarity = v)))
      (l.mergeSort searchLE) :=
    List.sublist_mergeSort searchLE_trans searchLE_total hpw (List.filter_sublist l)
  have hsub2 := hsub.filter (fun r => decide (r.similarity = v))
  rw [List.filter_filter] at hsub2
  have hsimp : (l.filter fun a => decide (a.similarity = v) && decide (a.similarity = v)) =
      l.filter (fun r => decide (r.similarity = v)) := by
    simp [Bool.and_self]
  rw [hsimp] at hsub2
  have hlen : (l.filter (fun r => decide (r.similarity = v))).length =
      ((l.mergeSort searchLE).filter (fun r => decide (r.similarity = v))).length :=
    (((List.mergeSort_perm l searchLE).filter _).length_eq).symm
  exact (hsub2.eq_of_length hlen).symm

theorem mem_semantic_search_content_type (env : Env) (S : Store) (q : Option String)
    (k : Int) (ds : Option String) (ct : String) (hct : ct ≠ "")
    {r : SearchResult} (hr : r ∈ (semantic_search env S q k ds (some ct)).1) :
    r.content_type = ct := by
  rw [semantic_search, pySlice_eq_take] at hr
  have hr2 := List.mem_mergeSort.mp (List.mem_of_mem_take hr)
  rw [scored_results] at hr2
  simp only [truthyStr, List.mem_map] at hr2
  obtain ⟨item, hitem, hfr⟩ := hr2
  have hb : (ct != "") = true := by simpa using hct
  rw [if_pos hb] at hitem
  have := (List.mem_filter.mp hitem).2
  simp only [Option.getD_some, beq_iff_eq] at this
  subst hfr
  simpa using this

theorem scored_results_calls_no_synth (env : Env) (S : Store)
    (q d ct : Option String) :
    ∀ c ∈ (scored_results env S q d ct).2, ∀ s, c ≠ ExtCall.synthesizeAnswer s := by
  intro c hc s
  rw [scored_results] at hc
  simp only [generate_embedding, retrieve_embeddings] at hc
  by_cases hd : truthyStr d = true
  · rw [if_pos hd] at hc
    simp only [List.mem_append, List.mem_singleton] at hc
    rcases hc with hc | hc <;> simp [hc]
  · rw [if_neg hd] at hc
    simp only [List.mem_append, List.mem_singleton] at hc
    rcases hc with hc | hc <;> simp [hc]

theorem sumSq_nonneg (l : List ℝ) : 0 ≤ (l.map (fun a => a * a)).sum := by
  induction l with
  | nil => simp
  | cons x xs ih =>
    simp only [List.map_cons, List.sum_cons]
    nlinarith [mul_self_nonneg x]

theorem zip_dot_sq_le (a b : List ℝ) :
    ((List.zipWith (fun x y => x * y) a b).sum) ^ 2 ≤
      ((a.map (fun x => x * x)).sum) * ((b.map (fun x => x * x)).sum) := by
  induction a generalizing b with
  | nil => simp
  | cons x xs ih =>
    cases b with
    | nil => simp
    | cons y ys =>
      have hA := sumSq_nonneg xs
      have hB := sumSq_nonneg ys
      have hd := ih ys
      simp only [List.zipWith_cons_cons, List.map_cons, List.sum_cons]
      rcases eq_or_lt_of_le hB with hB0 | hBpos
      · have hd2 : ((List.zipWith (fun x y => x * y) xs ys).sum) ^ 2 = 0 := by
          nlinarith [sq_nonneg ((List.zipWith (fun x y => x * y) xs ys).sum)]
        have hd0 : (List.zipWith (fun x y => x * y) xs ys).sum = 0 :=
          pow_eq_zero_iff two_ne_zero |>.mp hd2
        rw [hd0, ← hB0]
        nlinarith [mul_self_nonneg x, mul_self_nonneg y,
          mul_nonneg hA (mul_self_nonneg y)]
      · nlinarith [sq_nonneg (x * (ys.map (fun x => x * x)).sum -
            y * (List.zipWith (fun x y => x * y) xs ys).sum),
          mul_nonneg (add_nonneg (mul_self_nonneg y) hBpos.le) (sub_nonneg.mpr hd),
          hBpos]

theorem cosine_similarity_eq (a b : List ℝ) :
    cosine_similarity a b =
      if vecMag a = 0 ∨ vecMag b = 0 then 0
      else (List.zipWith (fun x y => x * y) a b).sum / (vecMag a * vecMag b) := rfl

theorem vecMag_nonneg (v : List ℝ) : 0 ≤ vecMag v := Real.sqrt_nonneg _

theorem abs_zip_dot_le (a b : List ℝ) :
    |(List.zipWith (fun x y => x * y) a b).sum| ≤ vecMag a * vecMag b := by
  have h := zip_dot_sq_le a b
  have h1 : |(List.zipWith (fun x y => x * y) a b).sum| =
      Real.sqrt (((List.zipWith (fun x y => x * y) a b).sum) ^ 2) :=
    (Real.sqrt_sq_eq_abs _).symm
  rw [h1, vecMag, vecMag, ← Real.sqrt_mul (sumSq_nonneg a)]
  exact Real.sqrt_le_sqrt h

theorem cosine_one_three_four : cosine_similarity [(1:ℝ)] [3, 4] = 3 / 5 := by
  have h2 : Real.sqrt ((3:ℝ) * 3 + (4 * 4 + 0)) = 5 := by
    rw [show (3:ℝ) * 3 + (4 * 4 + 0) = 5 ^ 2 by norm_num]
    exact Real.sqrt_sq (by norm_num)
  have h1 : Real.sqrt ((1:ℝ) * 1 + 0) = 1 := by
    rw [show (1:ℝ) * 1 + 0 = 1 by norm_num]
    exact Real.sqrt_one
  simp only [cosine_similarity, List.zipWith_cons_cons, List.zipWith_nil_right,
    List.map_cons, List.map_nil, List.sum_cons, List.sum_nil, h1, h2]
  norm_num

theorem string_append_ne (d : String) {x y : String} (h : x ≠ y) : d ++ x ≠ d ++ y := by
  intro he
  apply h
  have h2 := congrArg String.data he
  rw [String.data_append, String.data_append] at h2
  exact String.ext ((List.append_right_inj _).mp h2)

theorem abstract_ne_meta : ("abstract" : String) ≠ "metadata" := by decide

theorem keywords_ne_meta : ("keywords" : String) ≠ "metadata" := by decide

theorem id_abstract_ne (d : String) : d ++ "#abstract" ≠ d ++ "#metadata" :=
  string_append_ne d (by decide)

theorem id_keywords_ne (d : String) : d ++ "#keywords" ≠ d ++ "#metadata" :=
  string_append_ne d (by decide)

theorem put_nonmeta_preserve (d : String) (S : Store) (item : EmbeddingRecord)
    (hinv : MetaIdConv d S)
    (hct : item.content_type ≠ "metadata")
    (hid : item.embedding_id ≠ d ++ "#metadata") :
    metaCount d (dynamo_put S item) = metaCount d S ∧
    MetaIdConv d (dynamo_put S item) := by
  constructor
  · rw [dynamo_put, metaCount, List.countP_append]
    have h1 : List.countP (fun r => decide (r.dataset_id = d ∧ r.content_type = "metadata"))
        [item] = 0 := by
      simp [List.countP_cons]
      intro _
      exact hct
    rw [h1, Nat.add_zero, List.countP_filter]
    rw [metaCount]
    apply List.countP_congr
    intro r hr
    simp only [Bool.and_eq_true, decide_eq_true_eq, bne_iff_ne]
    constructor
    · exact fun hx => hx.1
    · intro hx
      refine ⟨hx, ?_⟩
      rw [hinv r hr hx.1 hx.2]
      exact fun he => hid he.symm
  · intro r hr hds hctr
    rw [dynamo_put] at hr
    rcases List.mem_append.mp hr with h | h
    · exact hinv r (List.mem_of_mem_filter h) hds hctr
    · rw [List.mem_singleton] at h
      subst h
      exact absurd hctr hct

theorem put_meta_one (d : String) (S : Store) (item : EmbeddingRecord)
    (hinv : MetaIdConv d S)
    (hds : item.dataset_id = d) (hct : item.content_type = "metadata")
    (hid : item.embedding_id = d ++ "#metadata") :
    metaCount d (dynamo_put S item) = 1 ∧ MetaIdConv d (dynamo_put S item) := by
  constructor
  · rw [dynamo_put, metaCount, List.countP_append]
    have h1 : List.countP (fun r => decide (r.dataset_id = d ∧ r.content_type = "metadata"))
        [item] = 1 := by
      simp [List.countP_cons, hds, hct]
    have h0 : List.countP (fun r => decide (r.dataset_id = d ∧ r.content_type = "metadata"))
        (S.filter (fun r => r.embedding_id != item.embedding_id)) = 0 := by
      rw [List.countP_eq_zero]
      intro r hr hpr
      have hmem := List.mem_of_mem_filter hr
      have hfil := List.of_mem_filter hr
      simp only [bne_iff_ne] at hfil
      simp only [decide_eq_true_eq] at hpr
      exact hfil (by rw [hinv r hmem hpr.1 hpr.2, hid])
    rw [h1, h0]
  · intro r hr hds2 hct2
    rw [dynamo_put] at hr
    rcases List.mem_append.mp hr with h | h
    · exact hinv r (List.mem_of_mem_filter h) hds2 hct2
    · rw [List.mem_singleton] at h
      subst h
      exact hid

theorem put_keep_one (d : String) (S : Store) (item : EmbeddingRecord)
    (h : metaCount d S = 1 ∧ MetaIdConv d S)
    (hct : item.content_type ≠ "metadata")
    (hid : item.embedding_id ≠ d ++ "#metadata") :
    metaCount d (dynamo_put S item) = 1 ∧ MetaIdConv d (dynamo_put S item) := by
  obtain ⟨hm2, hcv2⟩ := put_nonmeta_preserve d S item h.2 hct hid
  exact ⟨hm2.trans h.1, hcv2⟩

theorem put_keep_le (d : String) (S : Store) (item : EmbeddingRecord)
    (h : MetaInv d S)
    (hct : item.content_type ≠ "metadata")
    (hid : item.embedding_id ≠ d ++ "#metadata") :
    MetaInv d (dynamo_put S item) := by
  obtain ⟨hm2, hcv2⟩ := put_nonmeta_preserve d S item h.2 hct hid
  exact ⟨hm2.le.trans h.1, hcv2⟩

theorem store_embedding_fst (env : Env) (S : Store)
    (embedding_id dataset_id content_type content : String)
    (embedding : List ℝ) (metadata : List (String × MetaVal)) :
    (store_embedding env S embedding_id dataset_id content_type content
        embedding metadata).1.1 =
      dynamo_put S
        { embedding_id := embedding_id, dataset_id := dataset_id,
          content_type := content_type, content := content, embedding := embedding,
          model := EMBEDDING_MODEL, created_at := env.now, metadata := metadata } := rfl

theorem index_dataset_meta_step (env : Env) (S : Store) (params : Params)
    (S' : Store) (r : IndexResult) (calls : List ExtCall)
    (hok : index_dataset env S params = Except.ok ((S', r), calls))
    (hinv : MetaInv (params.dataset_id.getD "") S) :
    MetaInv (params.dataset_id.getD "") S' ∧
    ((truthyS (params.title.getD "") && truthyS (params.description.getD "")) = true →
      metaCount (params.dataset_id.getD "") S' = 1) := by
  by_cases hd : truthyStr params.dataset_id = false
  · rw [index_dataset, if_pos hd] at hok
    exact absurd hok (by simp)
  · rw [index_dataset, if_neg hd] at hok
    simp only [Except.ok.injEq, Prod.mk.injEq] at hok
    obtain ⟨⟨hS', -⟩, -⟩ := hok
    obtain ⟨hc, hi⟩ := hinv
    rw [← hS']
    clear hS'
    set d := params.dataset_id.getD ""
    by_cases h1 : (truthyS (params.title.getD "") && truthyS (params.description.getD "")) = true <;>
    by_cases h2 : truthyS (params.abstract.getD "") = true <;>
    by_cases h3 : (!(params.keywords.getD []).isEmpty || !(params.subjects.getD []).isEmpty) = true <;>
    simp only [h1, h2, h3, if_true, if_false, store_embedding_fst]
    · refine (fun (p : _ ∧ _) => ⟨⟨le_of_eq p.1, p.2⟩, fun _ => p.1⟩) ?_
      refine put_keep_one d _ _ (put_keep_one d _ _
        (put_meta_one d _ _ hi rfl rfl rfl) ?_ ?_) ?_ ?_
      · exact abstract_ne_meta
      · exact id_abstract_ne d
      · exact keywords_ne_meta
      · exact id_keywords_ne d
    · refine (fun (p : _ ∧ _) => ⟨⟨le_of_eq p.1, p.2⟩, fun _ => p.1⟩) ?_
      refine put_keep_one d _ _ (put_meta_one d _ _ hi rfl rfl rfl) ?_ ?_
      · exact abstract_ne_meta
      · exact id_abstract_ne d
    · refine (fun (p : _ ∧ _) => ⟨⟨le_of_eq p.1, p.2⟩, fun _ => p.1⟩) ?_
      refine put_keep_one d _ _ (put_meta_one d _ _ hi rfl rfl rfl) ?_ ?_
      · exact keywords_ne_meta
      · exact id_keywords_ne d
    · exact (fun (p : _ ∧ _) => ⟨⟨le_of_eq p.1, p.2⟩, fun _ => p.1⟩)
        (put_meta_one d _ _ hi rfl rfl rfl)
    · refine ⟨?_, fun hx => absurd hx (by decide)⟩
      refine put_keep_le d _ _ (put_keep_le d _ _ ⟨hc, hi⟩ ?_ ?_) ?_ ?_
      · exact abstract_ne_meta
      · exact id_abstract_ne d
      · exact keywords_ne_meta
      · exact id_keywords_ne d
    · refine ⟨?_, fun hx => absurd hx (by decide)⟩
      refine put_keep_le d _ _ ⟨hc, hi⟩ ?_ ?_
      · exact abstract_ne_meta
      · exact id_abstract_ne d
    · refine ⟨?_, fun hx => absurd hx (by decide)⟩
      refine put_keep_le d _ _ ⟨hc, hi⟩ ?_ ?_
      · exact keywords_ne_meta
      · exact id_keywords_ne d
    · exact ⟨⟨hc, hi⟩, fun hx => absurd hx (by decide)⟩

/-! ### Claim theorems -/

/-- C1, counterexample: a semantic_search call whose single candidate stores a
2-dimensional vector while the query embedding is 1-dimensional raises no
error; it returns the similarity value 3/5 computed over the mismatched pair,
contradicting the claim that such a call raises a validation/internal error
and never returns a similarity value. -/
theorem c1_mismatch_counterexample :
    (env1.embed (some "q")).length ≠ rec34.embedding.length ∧
    (semantic_search env1 [rec34] (some "q") 5 none none).1.map
      (fun r => r.similarity) = [3 / 5] := by
  constructor
  · simp [env1, rec34]
  · simp [semantic_search, scored_results, generate_embedding, retrieve_embeddings,
      truthyStr, env1, rec34, pySlice, cosine_one_three_four]

/-- C1, amended: dimension mismatches are not detected.  On the mismatched
pair the call returns the stored record with similarity 3/5, which is the dot
product truncated by zip to the common prefix divided by the full-length
magnitudes. -/
theorem c1_mismatch_amended :
    (semantic_search env1 [rec34] (some "q") 5 none none).1 =
      [{ embedding_id := "ds-1#metadata", dataset_id := "ds-1",
         content_type := "metadata", content := "c", metadata := [],
         similarity := 3 / 5 }] ∧
    cosine_similarity [(1:ℝ)] [3, 4] =
      ((1:ℝ) * 3) / (Real.sqrt (1 * 1) * Real.sqrt (3 * 3 + 4 * 4)) := by
  constructor
  · simp [semantic_search, scored_results, generate_embedding, retrieve_embeddings,
      truthyStr, env1, rec34, pySlice, cosine_one_three_four]
  · have h2 : Real.sqrt ((3:ℝ) * 3 + 4 * 4) = 5 := by
      rw [show (3:ℝ) * 3 + 4 * 4 = 5 ^ 2 by norm_num]
      exact Real.sqrt_sq (by norm_num)
    have h1 : Real.sqrt ((1:ℝ) * 1) = 1 := by
      rw [show (1:ℝ) * 1 = 1 by norm_num]
      exact Real.sqrt_one
    rw [cosine_one_three_four, h1, h2]
    norm_num

/-- C2, counterexample: the semantic_search operation with a missing query
does not fail validation; it calls the embedding provider (on the Python value
None) and the store, and returns status 200, so an external call is made with
no validation error. -/
theorem c2_validation_counterexample :
    (({} : Params).query = none) ∧
    (lambda_handler env0 [] { operation := some "semantic_search", parameters := {} }).2.2 =
      [ExtCall.embedText none, ExtCall.storeScan] ∧
    (lambda_handler env0 [] { operation := some "semantic_search", parameters := {} }).1.statusCode
      = 200 := by
  refine ⟨rfl, ?_, ?_⟩ <;>
  simp [lambda_handler, semantic_search, scored_results, generate_embedding,
    retrieve_embeddings, truthyStr, env0, pySlice]

/-- C2, amended: the index_dataset and delete_dataset operations with a
missing/empty dataset_id (whatever the other parameters), the query operation
with a missing/empty query (whatever the other parameters), and any unknown
operation name (with any parameters at all) each return a 400 validation error
with a descriptive message, the store unchanged and no external call made.
(The semantic_search operation is excluded: it performs no query validation,
per the counterexample.) -/
theorem c2_validation_amended (env : Env) (S : Store) (params : Params) :
    (truthyStr params.dataset_id = false →
      ∃ msg, lambda_handler env S { operation := some "index_dataset", parameters := params } =
        ({ statusCode := 400, body := HandlerBody.validationError msg }, S, [])) ∧
    (truthyStr params.dataset_id = false →
      ∃ msg, lambda_handler env S { operation := some "delete_dataset", parameters := params } =
        ({ statusCode := 400, body := HandlerBody.validationError msg }, S, [])) ∧
    (truthyStr params.query = false →
      ∃ msg, lambda_handler env S { operation := some "query", parameters := params } =
        ({ statusCode := 400, body := HandlerBody.validationError msg }, S, [])) ∧
    (∀ op : String, op ≠ "index_dataset" → op ≠ "query" → op ≠ "delete_dataset" →
      op ≠ "semantic_search" →
      ∃ msg, lambda_handler env S { operation := some op, parameters := params } =
        ({ statusCode := 400, body := HandlerBody.validationError msg }, S, [])) := by
  refine ⟨?_, ?_, ?_, ?_⟩
  · intro hd
    exact ⟨"dataset_id is required", by simp [lambda_handler, index_dataset, hd]⟩
  · intro hd
    exact ⟨"dataset_id is required", by simp [lambda_handler, delete_dataset_embeddings, hd]⟩
  · intro hq
    exact ⟨"query is required", by simp [lambda_handler, query_knowledge_base, hq]⟩
  · intro op h1 h2 h3 h4
    refine ⟨"Unknown operation: " ++ op, ?_⟩
    simp [lambda_handler, opRepr, h1, h2, h3, h4]

/-- C2, witness: the amended theorem applied with a query supplied but no
dataset_id (index, delete, unknown operation) and with a dataset_id supplied
but no query (query operation). -/
theorem c2_validation_amended_witness :
    truthyStr paramsQ.dataset_id = false ∧
    truthyStr paramsD.query = false ∧
    (∃ msg, lambda_handler env0 [] { operation := some "index_dataset", parameters := paramsQ } =
      ({ statusCode := 400, body := HandlerBody.validationError msg }, [], [])) ∧
    (∃ msg, lambda_handler env0 [] { operation := some "delete_dataset", parameters := paramsQ } =
      ({ statusCode := 400, body := HandlerBody.validationError msg }, [], [])) ∧
    (∃ msg, lambda_handler env0 [] { operation := some "query", parameters := paramsD } =
      ({ statusCode := 400, body := HandlerBody.validationError msg }, [], [])) ∧
    (∃ msg, lambda_handler env0 [] { operation := some "list_datasets", parameters := paramsQ } =
      ({ statusCode := 400, body := HandlerBody.validationError msg }, [], [])) :=
  ⟨rfl, rfl,
   (c2_validation_amended env0 [] paramsQ).1 rfl,
   (c2_validation_amended env0 [] paramsQ).2.1 rfl,
   (c2_validation_amended env0 [] paramsD).2.2.1 rfl,
   (c2_validation_amended env0 [] paramsQ).2.2.2 "list_datasets"
     (by decide) (by decide) (by decide) (by decide)⟩

/-- C3: with the store's put modelled from the spec as an upsert keyed by
embedding_id, repeated indexing with fixed inputs starting from an empty store
leaves at most one metadata record for the dataset, and exactly one as soon as
indexing has run at least once with non-empty title and description: repeated
calls overwrite rather than append. -/
theorem c3_reindex_overwrites (env : Env) (params : Params) (n : Nat) :
    metaCount (params.dataset_id.getD "") (indexIter env params n) ≤ 1 ∧
    (0 < n → truthyStr params.dataset_id = true →
      params.title.getD "" ≠ "" → params.description.getD "" ≠ "" →
      metaCount (params.dataset_id.getD "") (indexIter env params n) = 1) := by
  have key : ∀ m : Nat, MetaInv (params.dataset_id.getD "") (indexIter env params m) ∧
      (0 < m → truthyStr params.dataset_id = true →
        (truthyS (params.title.getD "") && truthyS (params.description.getD "")) = true →
        metaCount (params.dataset_id.getD "") (indexIter env params m) = 1) := by
    intro m
    induction m with
    | zero =>
      refine ⟨⟨?_, ?_⟩, fun h0 => absurd h0 (by omega)⟩
      · simp [indexIter, metaCount]
      · intro r hr
        simp [indexIter] at hr
    | succ k ih =>
      cases hcase : index_dataset env (indexIter env params k) params with
      | error msg =>
        have hit : indexIter env params (k + 1) = indexIter env params k := by
          rw [indexIter, hcase]
        rw [hit]
        refine ⟨ih.1, fun _ hd _ => ?_⟩
        rw [index_dataset, if_neg (by simp [hd])] at hcase
        exact absurd hcase (by simp)
      | ok val =>
        obtain ⟨⟨S', r⟩, calls⟩ := val
        have hit : indexIter env params (k + 1) = S' := by
          rw [indexIter, hcase]
        rw [hit]
        obtain ⟨hinv', hone⟩ :=
          index_dataset_meta_step env (indexIter env params k) params S' r calls hcase ih.1
        exact ⟨hinv', fun _ _ hb => hone hb⟩
  obtain ⟨⟨hle, -⟩, hone⟩ := key n
  refine ⟨hle, fun hn hd ht hdesc => hone hn hd ?_⟩
  simp [truthyS, ht, hdesc]

/-- C3, witness: indexing twice with a title and a description leaves exactly
one metadata record. -/
theorem c3_reindex_overwrites_witness :
    0 < 2 ∧ truthyStr params3.dataset_id = true ∧
    params3.title.getD "" ≠ "" ∧ params3.description.getD "" ≠ "" ∧
    metaCount (params3.dataset_id.getD "") (indexIter env0 params3 2) ≤ 1 ∧
    metaCount (params3.dataset_id.getD "") (indexIter env0 params3 2) = 1 :=
  ⟨by norm_num, by decide, by decide, by decide,
   (c3_reindex_overwrites env0 params3 2).1,
   (c3_reindex_overwrites env0 params3 2).2 (by norm_num) (by decide)
     (by decide) (by decide)⟩

/-- C4: every result list returned by semantic_search has similarity scores
sorted non-increasing, and entries with equal similarity keep their original
candidate enumeration order: for each similarity value, the matching returned
entries form a prefix of the matching scored candidates in enumeration order
(stable sort, no secondary tie-break key). -/
theorem c4_sorted_stable (env : Env) (S : Store)
    (query dataset_id content_type : Option String) (top_k : Int) :
    ((semantic_search env S query top_k dataset_id content_type).1.map
        (fun r => r.similarity)).Sorted (fun x y => y ≤ x) ∧
    ∀ v : ℝ, ∃ t,
      (scored_results env S query dataset_id content_type).1.filter
          (fun r => decide (r.similarity = v)) =
        (semantic_search env S query top_k dataset_id content_type).1.filter
          (fun r => decide (r.similarity = v)) ++ t := by
  have hout : (semantic_search env S query top_k dataset_id content_type).1 =
      ((scored_results env S query dataset_id content_type).1.mergeSort searchLE).take
        (pySliceLen ((scored_results env S query dataset_id content_type).1.mergeSort searchLE)
          top_k) := by
    rw [semantic_search]
    exact pySlice_eq_take _ _
  constructor
  · rw [hout]
    exact List.pairwise_map.mpr
      ((mergeSort_searchLE_pairwise _).sublist (List.take_sublist _ _))
  · intro v
    refine ⟨(((scored_results env S query dataset_id content_type).1.mergeSort searchLE).drop
      (pySliceLen ((scored_results env S query dataset_id content_type).1.mergeSort searchLE)
        top_k)).filter (fun r => decide (r.similarity = v)), ?_⟩
    rw [hout, ← List.filter_append, List.take_append_drop, mergeSort_searchLE_filter_sim]

/-- C5: for equal-length vectors, cosine_similarity equals the dot product
divided by the product of the magnitudes, lies in the interval from -1 to 1,
and is 0 whenever either magnitude is exactly zero. -/
theorem c5_cosine_similarity_spec (a b : List ℝ) (h : a.length = b.length) :
    cosine_similarity a b =
      (List.zipWith (fun x y => x * y) a b).sum / (vecMag a * vecMag b) ∧
    -1 ≤ cosine_similarity a b ∧ cosine_similarity a b ≤ 1 ∧
    ((vecMag a = 0 ∨ vecMag b = 0) → cosine_similarity a b = 0) := by
  by_cases h0 : vecMag a = 0 ∨ vecMag b = 0
  · have hz : vecMag a * vecMag b = 0 := by
      rcases h0 with h0 | h0 <;> simp [h0]
    rw [cosine_similarity_eq, if_pos h0]
    refine ⟨by rw [hz, div_zero], by norm_num, by norm_num, fun _ => rfl⟩
  · have hpos : 0 < vecMag a * vecMag b := by
      push_neg at h0
      rcases lt_of_le_of_ne (vecMag_nonneg a) (Ne.symm h0.1) with ha
      rcases lt_of_le_of_ne (vecMag_nonneg b) (Ne.symm h0.2) with hb
      exact mul_pos ha hb
    rw [cosine_similarity_eq, if_neg h0]
    have habs : |(List.zipWith (fun x y => x * y) a b).sum / (vecMag a * vecMag b)| ≤ 1 := by
      rw [abs_div, abs_of_pos hpos]
      exact div_le_one_of_le₀ (abs_zip_dot_le a b) hpos.le
    have hb2 := abs_le.mp habs
    exact ⟨rfl, hb2.1, hb2.2, fun hc => absurd hc h0⟩

/-- C5, witness: the specification instantiated at the vector with components
3 and 4 against itself. -/
theorem c5_cosine_similarity_spec_witness :
    ([(3:ℝ), 4]).length = ([(3:ℝ), 4]).length ∧
    (cosine_similarity [(3:ℝ), 4] [3, 4] =
      (List.zipWith (fun x y => x * y) [(3:ℝ), 4] [3, 4]).sum /
        (vecMag [(3:ℝ), 4] * vecMag [3, 4]) ∧
    -1 ≤ cosine_similarity [(3:ℝ), 4] [3, 4] ∧
    cosine_similarity [(3:ℝ), 4] [3, 4] ≤ 1 ∧
    ((vecMag [(3:ℝ), 4] = 0 ∨ vecMag [(3:ℝ), 4] = 0) →
      cosine_similarity [(3:ℝ), 4] [3, 4] = 0)) :=
  ⟨rfl, c5_cosine_similarity_spec [3, 4] [3, 4] rfl⟩

/-- C6: with non-negative top_k the returned list has length equal to the
minimum of top_k and the number of scored candidates remaining after
filtering, and an empty candidate set yields an empty list rather than an
error. -/
theorem c6_top_k_length (env : Env) (S : Store)
    (query dataset_id content_type : Option String) (top_k : Int)
    (h : 0 ≤ top_k) :
    (semantic_search env S query top_k dataset_id content_type).1.length =
      min top_k.toNat (scored_results env S query dataset_id content_type).1.length ∧
    ((scored_results env S query dataset_id content_type).1 = [] →
      (semantic_search env S query top_k dataset_id content_type).1 = []) := by
  constructor
  · show (pySlice _ top_k).length = _
    rw [pySlice_eq_take, List.length_take, pySliceLen, if_pos h, List.length_mergeSort]
  · intro hempty
    show pySlice _ top_k = []
    rw [hempty]
    simp [pySlice]

/-- C6, witness: the statement instantiated at an empty store with top_k 5. -/
theorem c6_top_k_length_witness :
    (0:Int) ≤ 5 ∧
    ((semantic_search env0 [] none 5 none none).1.length =
      min (5:Int).toNat (scored_results env0 [] none none none).1.length ∧
    ((scored_results env0 [] none none none).1 = [] →
      (semantic_search env0 [] none 5 none none).1 = [])) :=
  ⟨by norm_num, c6_top_k_length env0 [] none none none 5 (by norm_num)⟩

/-- C7: whenever the retrieval step of query_knowledge_base returns an empty
result list, no synthesizer call appears in the trace and the answer field is
null, even when include_answer is true; and the response always carries
total_results equal to the number of returned results. -/
theorem c7_empty_results_skip_synthesis (env : Env) (S : Store) (params : Params)
    (hq : truthyStr params.query = true) :
    ∃ resp calls, query_knowledge_base env S params = Except.ok (resp, calls) ∧
      resp.total_results = resp.results.length ∧
      ((semantic_search env S params.query (params.top_k.getD 5) params.dataset_id
          params.content_type).1 = [] →
        resp.answer = none ∧ resp.total_results = 0 ∧
        ∀ c ∈ calls, ∀ q, c ≠ ExtCall.synthesizeAnswer q) := by
  rw [query_knowledge_base]
  have hnf : ¬ (truthyStr params.query = false) := by simp [hq]
  rw [if_neg hnf]
  refine ⟨_, _, rfl, rfl, ?_⟩
  intro he
  have hempty : ((semantic_search env S params.query (params.top_k.getD 5)
      params.dataset_id params.content_type).1.isEmpty) = true := by
    rw [he]; rfl
  refine ⟨?_, ?_, ?_⟩
  · show (if (params.include_answer.getD true) &&
        !(semantic_search env S params.query (params.top_k.getD 5) params.dataset_id
          params.content_type).1.isEmpty then _
      else ((none : Option String), ([] : List ExtCall))).1 = none
    rw [hempty]
    simp
  · show (semantic_search env S params.query (params.top_k.getD 5) params.dataset_id
      params.content_type).1.length = 0
    rw [he]; rfl
  · intro c hc q
    simp only [List.mem_append] at hc
    rcases hc with hc | hc
    · exact scored_results_calls_no_synth env S params.query params.dataset_id
        params.content_type c hc q
    · exfalso
      revert hc
      show c ∈ (if (params.include_answer.getD true) &&
          !(semantic_search env S params.query (params.top_k.getD 5) params.dataset_id
            params.content_type).1.isEmpty then _
        else ((none : Option String), ([] : List ExtCall))).2 → False
      rw [hempty]
      simp

/-- C7, witness: a query against an empty store. -/
theorem c7_empty_results_skip_synthesis_witness :
    truthyStr (({ query := some "q" } : Params).query) = true ∧
    ∃ resp calls,
      query_knowledge_base env0 [] { query := some "q" } = Except.ok (resp, calls) ∧
      resp.total_results = resp.results.length ∧
      ((semantic_search env0 [] (some "q") 5 none none).1 = [] →
        resp.answer = none ∧ resp.total_results = 0 ∧
        ∀ c ∈ calls, ∀ q, c ≠ ExtCall.synthesizeAnswer q) :=
  ⟨rfl, c7_empty_results_skip_synthesis env0 [] { query := some "q" } rfl⟩

/-- C8, counterexample: the semantic_search operation with content_type
"abstract" supplied still returns a record whose content_type is "metadata",
so the supplied content_type does not restrict the results of that
operation. -/
theorem c8_content_type_counterexample :
    (lambda_handler env0 [recMeta]
        { operation := some "semantic_search", parameters := params8 }).1.body =
      HandlerBody.searchOk
        [{ embedding_id := "ds-2#metadata", dataset_id := "ds-2",
           content_type := "metadata", content := "m", metadata := [],
           similarity := 0 }] 1 ∧
    ("metadata" : String) ≠ "abstract" := by
  constructor
  · simp [lambda_handler, params8, semantic_search, scored_results, generate_embedding,
      retrieve_embeddings, truthyStr, env0, recMeta, pySlice, cosine_similarity]
  · decide

/-- C8, amended: for the query operation a supplied non-empty content_type
restricts every returned result to that content type by exact string match;
the semantic_search operation ignores the parameter entirely: its response is
identical to the one produced with no content_type supplied. -/
theorem c8_content_type_amended (env : Env) (S : Store) (params : Params)
    (ct : String) (hct : params.content_type = some ct) (hne : ct ≠ "") :
    (∀ resp calls, query_knowledge_base env S params = Except.ok (resp, calls) →
        ∀ r ∈ resp.results, r.content_type = ct) ∧
    lambda_handler env S { operation := some "semantic_search", parameters := params } =
      lambda_handler env S { operation := some "semantic_search", parameters := { params with content_type := none } } := by
  constructor
  · intro resp calls hok r hr
    rw [query_knowledge_base] at hok
    by_cases hq : truthyStr params.query = false
    · rw [if_pos hq] at hok
      exact absurd hok (by simp)
    · rw [if_neg hq] at hok
      simp only [Except.ok.injEq, Prod.mk.injEq] at hok
      obtain ⟨h1, -⟩ := hok
      have hres : resp.results =
          (semantic_search env S params.query (params.top_k.getD 5)
            params.dataset_id params.content_type).1 := by
        rw [← h1]
      rw [hres, hct] at hr
      exact mem_semantic_search_content_type env S params.query _ params.dataset_id ct hne hr
  · rfl

/-- C8, witness: the amended theorem applied to a query for content type
"abstract" over a store holding only a metadata record. -/
theorem c8_content_type_amended_witness :
    params8.content_type = some "abstract" ∧
    ("abstract" : String) ≠ "" ∧
    ((∀ resp calls,
        query_knowledge_base env0 [recMeta] params8 = Except.ok (resp, calls) →
        ∀ r ∈ resp.results, r.content_type = "abstract") ∧
    lambda_handler env0 [recMeta] { operation := some "semantic_search", parameters := params8 } =
      lambda_handler env0 [recMeta] { operation := some "semantic_search", parameters := { params8 with content_type := none } }) :=
  ⟨rfl, by decide,
   c8_content_type_amended env0 [recMeta] params8 "abstract" rfl (by decide)⟩

/-- C9: with a truthy dataset_id, index_dataset succeeds and its
embeddings_created equals the number of satisfied decomposition branches, and
the store-write calls carry exactly the ids of the satisfied branches: the
metadata id when both title and description are non-empty, the abstract id
when the abstract is non-empty, and the keywords id when keywords or subjects
is non-empty. -/
theorem c9_index_branches (env : Env) (S : Store) (params : Params)
    (hd : truthyStr params.dataset_id = true) :
    ∃ S' r calls, index_dataset env S params = Except.ok ((S', r), calls) ∧
      r.embeddings_created =
        ((if params.title.getD "" ≠ "" ∧ params.description.getD "" ≠ "" then 1 else 0) +
         (if params.abstract.getD "" ≠ "" then 1 else 0) +
         (if params.keywords.getD [] ≠ [] ∨ params.subjects.getD [] ≠ [] then 1 else 0)) ∧
      putIds calls =
        ((if params.title.getD "" ≠ "" ∧ params.description.getD "" ≠ "" then
            [params.dataset_id.getD "" ++ "#metadata"] else []) ++
         (if params.abstract.getD "" ≠ "" then
            [params.dataset_id.getD "" ++ "#abstract"] else []) ++
         (if params.keywords.getD [] ≠ [] ∨ params.subjects.getD [] ≠ [] then
            [params.dataset_id.getD "" ++ "#keywords"] else [])) := by
  have hx : ¬ (truthyStr params.dataset_id = false) := by simp [hd]
  rw [index_dataset, if_neg hx]
  refine ⟨_, _, _, rfl, ?_, ?_⟩ <;>
  · by_cases h1 : params.title.getD "" ≠ "" ∧ params.description.getD "" ≠ "" <;>
    by_cases h2 : params.abstract.getD "" ≠ "" <;>
    by_cases h3 : params.keywords.getD [] ≠ [] ∨ params.subjects.getD [] ≠ [] <;>
    simp [truthyS, h1, h2, h3, generate_embedding, store_embedding, putIds,
      List.isEmpty_iff, not_and_or, not_not]

/-- C9, witness: indexing with title, description and keywords but no abstract
creates exactly the metadata and keywords records. -/
theorem c9_index_branches_witness :
    truthyStr params9.dataset_id = true ∧
    ∃ S' r calls, index_dataset env0 [] params9 = Except.ok ((S', r), calls) ∧
      r.embeddings_created =
        ((if params9.title.getD "" ≠ "" ∧ params9.description.getD "" ≠ "" then 1 else 0) +
         (if params9.abstract.getD "" ≠ "" then 1 else 0) +
         (if params9.keywords.getD [] ≠ [] ∨ params9.subjects.getD [] ≠ [] then 1 else 0)) ∧
      putIds calls =
        ((if params9.title.getD "" ≠ "" ∧ params9.description.getD "" ≠ "" then
            [params9.dataset_id.getD "" ++ "#metadata"] else []) ++
         (if params9.abstract.getD "" ≠ "" then
            [params9.dataset_id.getD "" ++ "#abstract"] else []) ++
         (if params9.keywords.getD [] ≠ [] ∨ params9.subjects.getD [] ≠ [] then
            [params9.dataset_id.getD "" ++ "#keywords"] else [])) :=
  ⟨by decide, c9_index_branches env0 [] params9 (by decide)⟩

/-- C10: with negative top_k, semantic_search neither errors nor returns the
top entries: the returned list is the full descending ranking with exactly the
lowest-ranked entries removed (as many as the absolute value of top_k, clamped
at the candidate count), every removed entry having similarity at most that of
every returned one; and top_k zero returns the empty list. -/
theorem c10_negative_top_k (env : Env) (S : Store)
    (query dataset_id content_type : Option String) (top_k : Int)
    (hk : top_k ≤ 0) :
    (top_k = 0 → (semantic_search env S query top_k dataset_id content_type).1 = []) ∧
    (top_k < 0 →
      ((semantic_search env S query top_k dataset_id content_type).1 ++
        ((scored_results env S query dataset_id content_type).1.mergeSort searchLE).drop
          (((scored_results env S query dataset_id content_type).1.mergeSort searchLE).length -
            (-top_k).toNat) =
        (scored_results env S query dataset_id content_type).1.mergeSort searchLE) ∧
      (semantic_search env S query top_k dataset_id content_type).1.length =
        ((scored_results env S query dataset_id content_type).1.mergeSort searchLE).length -
          (-top_k).toNat ∧
      ∀ r ∈ ((scored_results env S query dataset_id content_type).1.mergeSort searchLE).drop
          (((scored_results env S query dataset_id content_type).1.mergeSort searchLE).length -
            (-top_k).toNat),
        ∀ s ∈ (semantic_search env S query top_k dataset_id content_type).1,
          r.similarity ≤ s.similarity) := by
  constructor
  · intro h0
    subst h0
    show pySlice ((scored_results env S query dataset_id content_type).1.mergeSort searchLE) 0
      = []
    simp [pySlice]
  · intro hneg
    have hks : ¬ (0 ≤ top_k) := by omega
    have hout : (semantic_search env S query top_k dataset_id content_type).1 =
        ((scored_results env S query dataset_id content_type).1.mergeSort searchLE).take
          (((scored_results env S query dataset_id content_type).1.mergeSort searchLE).length -
            (-top_k).toNat) := by
      show pySlice ((scored_results env S query dataset_id content_type).1.mergeSort searchLE)
        top_k = _
      rw [pySlice_eq_take, pySliceLen, if_neg hks]
    refine ⟨?_, ?_, ?_⟩
    · rw [hout, List.take_append_drop]
    · rw [hout, List.length_take, min_eq_left (Nat.sub_le _ _)]
    · intro r hr s hs
      rw [hout] at hs
      have hp := mergeSort_searchLE_pairwise (scored_results env S query dataset_id content_type).1
      rw [← List.take_append_drop
        (((scored_results env S query dataset_id content_type).1.mergeSort searchLE).length -
          (-top_k).toNat)
        ((scored_results env S query dataset_id content_type).1.mergeSort searchLE)] at hp
      exact (List.pairwise_append.mp hp).2.2 s hs r hr

/-- C10, witness: the statement instantiated at an empty store with top_k -5. -/
theorem c10_negative_top_k_witness :
    (-5 : Int) ≤ 0 ∧
    ((-5 : Int) = 0 → (semantic_search env0 [] none (-5) none none).1 = []) ∧
    ((-5 : Int) < 0 →
      ((semantic_search env0 [] none (-5) none none).1 ++
        ((scored_results env0 [] none none none).1.mergeSort searchLE).drop
          (((scored_results env0 [] none none none).1.mergeSort searchLE).length -
            (-(-5 : Int)).toNat) =
        (scored_results env0 [] none none none).1.mergeSort searchLE) ∧
      (semantic_search env0 [] none (-5) none none).1.length =
        ((scored_results env0 [] none none none).1.mergeSort searchLE).length -
          (-(-5 : Int)).toNat ∧
      ∀ r ∈ ((scored_results env0 [] none none none).1.mergeSort searchLE).drop
          (((scored_results env0 [] none none none).1.mergeSort searchLE).length -
            (-(-5 : Int)).toNat),
        ∀ s ∈ (semantic_search env0 [] none (-5) none none).1,
          r.similarity ≤ s.similarity) :=
  ⟨by norm_num, (c10_negative_top_k env0 [] none none none (-5) (by norm_num)).1,
   (c10_negative_top_k env0 [] none none none (-5) (by norm_num)).2⟩
